import Mathlib

/-!
Shallow embedding of the moderation, violation-ledger, ban and rate-limiting
logic of the tglb_bots Telegram bot (src/database.py, src/moderator.py,
src/moderation_rules.py, src/rate_limiter.py, src/handlers.py).

Timestamps are modelled as integers (seconds); `datetime.now() + timedelta`
becomes integer addition (24 hours = 86400 seconds).  A row of the sqlite
`users` table is a Lean structure; a per-user database state is
`Option UserRow` (`none` = no row for that user).  Fallible sqlite calls that
the code guards with try/except are total here because the embedded
transitions only touch in-memory state.
-/

/-- Seconds in 24 hours (`timedelta(hours=24)` in `Database.add_violation`). -/
def day_seconds : Int := 86400

/-- One row of the sqlite `users` table, restricted to the columns the
embedded operations read or write (src/database.py `_init_database` and the
`last_violation_date` column that `add_violation` / `reset_violations`
reference). -/
structure UserRow where
  is_banned : Bool
  ban_reason : Option String
  ban_until : Option Int
  violations_count : Nat
  violations_expire_at : Option Int
  last_violation_date : Option Int
  deriving Repr, DecidableEq

/-- `Database.is_banned` (src/database.py lines 198-233): lazily clears an
expired ban.  Returns the new per-user state together with the
`(is_banned, reason)` pair the Python function returns. -/
def Database.is_banned (st : Option UserRow) (now : Int) :
    Option UserRow × (Bool × Option String) :=
  match st with
  | none => (none, (false, none))
  | some row =>
    if row.is_banned then
      match row.ban_until with
      | some b =>
        if b < now then
          (some { row with is_banned := false, ban_reason := none, ban_until := none },
           (false, none))
        else
          (some row, (row.is_banned, row.ban_reason))
      | none => (some row, (row.is_banned, row.ban_reason))
    else
      (some row, (row.is_banned, row.ban_reason))

/-- `Database.clear_expired_violations` (src/database.py lines 272-302):
if the row exists and has an expiry in the past, zero the counter and drop
the expiry.  Returns the new state and the boolean the Python function
returns. -/
def Database.clear_expired_violations (st : Option UserRow) (now : Int) :
    Option UserRow × Bool :=
  match st with
  | none => (none, false)
  | some row =>
    match row.violations_expire_at with
    | some e =>
      if e < now then
        (some { row with violations_count := 0, violations_expire_at := none }, true)
      else
        (some row, false)
    | none => (some row, false)

/-- `Database.get_ban_duration` (src/database.py lines 304-314): the
escalation dictionary `{2: 5, 3: 10, 4: 30, 5: 60}` with default 0. -/
def Database.get_ban_duration (violations_count : Nat) : Nat :=
  if violations_count = 2 then 5
  else if violations_count = 3 then 10
  else if violations_count = 4 then 30
  else if violations_count = 5 then 60
  else 0

/-- `Database.add_violation` (src/database.py lines 316-364): clear expired
violations, then increment the counter, stamp `last_violation_date` and set
`violations_expire_at = now + 24h` (inserting a fresh row with count 1 when
the user has none).  Returns (state, success, active violation count). -/
def Database.add_violation (st : Option UserRow) (now : Int) :
    Option UserRow × Bool × Nat :=
  let st1 := (Database.clear_expired_violations st now).1
  let expire_at := now + day_seconds
  match st1 with
  | some row =>
    let row' := { row with
      violations_count := row.violations_count + 1,
      last_violation_date := some now,
      violations_expire_at := some expire_at }
    (some row', true, row'.violations_count)
  | none =>
    let row' : UserRow := {
      is_banned := false, ban_reason := none, ban_until := none,
      violations_count := 1,
      last_violation_date := some now,
      violations_expire_at := some expire_at }
    (some row', true, 1)

/-- The enforcement action `handle_message` takes after recording a
violation (src/handlers.py lines 264-287). -/
inductive EnforcementAction where
  | warn
  | ban (minutes : Nat)
  | nothing
  deriving Repr, DecidableEq

/-- Escalation logic of `handle_message` (src/handlers.py lines 264-287):
count 1 warns; otherwise the user is banned for `get_ban_duration count`
minutes exactly when that duration is positive. -/
def handler_enforcement (violations_count : Nat) : EnforcementAction :=
  if violations_count = 1 then .warn
  else
    let d := Database.get_ban_duration violations_count
    if 0 < d then .ban d else .nothing

/-- C1: the escalation table of the code.  Counts 1-5 map to durations
0, 5, 10, 30, 60 and the handler warns at 1 and bans exactly when the
duration is positive - but a 6th violation inside the window yields
duration 0 and NO ban, contradicting the claim that every count >= 5
yields a 60-minute ban. -/
theorem c1_escalation_table :
    Database.get_ban_duration 1 = 0 ∧
    Database.get_ban_duration 2 = 5 ∧
    Database.get_ban_duration 3 = 10 ∧
    Database.get_ban_duration 4 = 30 ∧
    Database.get_ban_duration 5 = 60 ∧
    Database.get_ban_duration 6 = 0 ∧
    Database.get_ban_duration 7 = 0 ∧
    handler_enforcement 1 = .warn ∧
    handler_enforcement 5 = .ban 60 ∧
    handler_enforcement 6 = .nothing := by
  decide

/-- C9: `Database.is_banned` on a user whose ban has expired: it returns
`(false, none)`, persists the clearing of flag, reason and `ban_until`, the
cleared state is a fixed point (later calls at any time return the same
result without further change), and a user with no row also gets
`(false, none)`. -/
theorem c9_is_banned_lazy_clear (row : UserRow) (now now2 : Int) (b : Int)
    (hflag : row.is_banned = true) (huntil : row.ban_until = some b)
    (hpast : b < now) :
    Database.is_banned (some row) now =
      (some { row with is_banned := false, ban_reason := none, ban_until := none },
       (false, none)) ∧
    Database.is_banned
      (some { row with is_banned := false, ban_reason := none, ban_until := none }) now2 =
      (some { row with is_banned := false, ban_reason := none, ban_until := none },
       (false, none)) ∧
    Database.is_banned (none : Option UserRow) now = (none, (false, none)) := by
  refine ⟨?_, ?_, rfl⟩
  · simp [Database.is_banned, hflag, huntil, hpast]
  · simp [Database.is_banned]

/-- Closed instance of `c9_is_banned_lazy_clear` at a concrete banned row. -/
theorem c9_is_banned_lazy_clear_witness :
    Database.is_banned
      (some { is_banned := true, ban_reason := some "spam", ban_until := some 100,
              violations_count := 2, violations_expire_at := none,
              last_violation_date := none }) 200 =
      (some { is_banned := false, ban_reason := none, ban_until := none,
              violations_count := 2, violations_expire_at := none,
              last_violation_date := none },
       (false, none)) :=
  (c9_is_banned_lazy_clear
      { is_banned := true, ban_reason := some "spam", ban_until := some 100,
        violations_count := 2, violations_expire_at := none,
        last_violation_date := none }
      200 300 100 rfl rfl (by decide)).1

/-- C8: `Database.add_violation` called after the violation window has
expired first clears the window and then records a fresh first violation:
the returned count is exactly 1 and the new expiry is `now + 24h`. -/
theorem c8_add_violation_after_expiry (row : UserRow) (now e : Int)
    (hexp : row.violations_expire_at = some e) (hpast : e < now) :
    Database.add_violation (some row) now =
      (some { row with violations_count := 1,
                       last_violation_date := some now,
                       violations_expire_at := some (now + day_seconds) },
       true, 1) := by
  simp [Database.add_violation, Database.clear_expired_violations, hexp, hpast]

/-- Closed instance of `c8_add_violation_after_expiry` at a concrete row
whose window expired at time 100, with the new violation at time 200. -/
theorem c8_add_violation_after_expiry_witness :
    Database.add_violation
      (some { is_banned := false, ban_reason := none, ban_until := none,
              violations_count := 4, violations_expire_at := some 100,
              last_violation_date := some 50 }) 200 =
      (some { is_banned := false, ban_reason := none, ban_until := none,
              violations_count := 1, violations_expire_at := some 86600,
              last_violation_date := some 200 },
       true, 1) :=
  c8_add_violation_after_expiry
    { is_banned := false, ban_reason := none, ban_until := none,
      violations_count := 4, violations_expire_at := some 100,
      last_violation_date := some 50 }
    200 100 rfl (by decide)

/-- A user row one violation into a still-active window expiring at 100. -/
def c2_row : UserRow :=
  { is_banned := false, ban_reason := none, ban_until := none,
    violations_count := 1, violations_expire_at := some 100,
    last_violation_date := some 0 }

/-- C2 counterexample: a second violation at time 50, while the window
expiring at 100 is still active, does NOT leave `violations_expire_at`
unchanged: the code overwrites it with `now + 24h = 86450`. -/
theorem c2_counterexample :
    (Database.add_violation (some c2_row) 50).1 =
      some { c2_row with violations_count := 2,
                         last_violation_date := some 50,
                         violations_expire_at := some 86450 } ∧
    c2_row.violations_expire_at = some 100 ∧
    (86450 : Int) ≠ 100 := by
  refine ⟨?_, rfl, by decide⟩
  simp [Database.add_violation, Database.clear_expired_violations, c2_row, day_seconds]

/-- C2 amended: EVERY recorded violation sets `violations_expire_at` to
`now + 24h` (the window is refreshed on each violation, not only on the
first); violations recorded while the window is active still accumulate
onto the same counter (the count always increments by one). -/
theorem c2_expiry_refreshed_each_violation (st : Option UserRow) (now : Int) :
    (∃ row', (Database.add_violation st now).1 = some row' ∧
      row'.violations_expire_at = some (now + day_seconds)) ∧
    (∀ row e, st = some row → row.violations_expire_at = some e → ¬ e < now →
      (Database.add_violation st now).2.2 = row.violations_count + 1) := by
  constructor
  · match st with
    | none => exact ⟨_, rfl, rfl⟩
    | some row =>
      match hexp : row.violations_expire_at with
      | none =>
        simp [Database.add_violation, Database.clear_expired_violations, hexp]
      | some e =>
        by_cases hpast : e < now <;>
          simp [Database.add_violation, Database.clear_expired_violations, hexp, hpast]
  · intro row e hst hexp hactive
    subst hst
    simp [Database.add_violation, Database.clear_expired_violations, hexp, hactive]

/-- Closed instance of `c2_expiry_refreshed_each_violation`: the second
violation at time 50 in the active window keeps accumulating (count 2). -/
theorem c2_expiry_refreshed_each_violation_witness :
    (Database.add_violation (some c2_row) 50).2.2 = c2_row.violations_count + 1 :=
  (c2_expiry_refreshed_each_violation (some c2_row) 50).2 c2_row 100 rfl rfl (by decide)

/-- Python `str.lower()`, modelled characterwise (basic-latin lowering). -/
def py_lower (s : String) : String := ⟨s.data.map Char.toLower⟩

/-- Python `a in b` on strings: contiguous-substring containment. -/
def py_contains (needle haystack : String) : Bool :=
  decide (needle.data <:+: haystack.data)

/-- Python `str.split()` with no argument (used on the lowered message by
`Moderator.check_partial_matches`): split on whitespace runs, dropping empty
tokens.  `acc` holds the current token reversed. -/
def py_split_ws_aux : List Char → List Char → List String
  | [], acc => if acc.isEmpty then [] else [⟨acc.reverse⟩]
  | c :: cs, acc =>
    if c.isWhitespace then
      if acc.isEmpty then py_split_ws_aux cs []
      else (⟨acc.reverse⟩ : String) :: py_split_ws_aux cs []
    else py_split_ws_aux cs (c :: acc)

/-- Python `str.split()` with no argument. -/
def py_split_ws (s : String) : List String := py_split_ws_aux s.data []

/-- How a Python f-string renders an `Optional[str]` value. -/
def render_opt (s : Option String) : String :=
  match s with
  | some s => s
  | none => "None"

/-- One category of the `stop_words` section of moderation_rules.json, in
dict iteration order (src/moderation_rules.py `_load_rules`). -/
structure StopWordCategory where
  category : String
  words : List String

/-- One entry of the `word_combinations` list of moderation_rules.json. -/
structure WordCombination where
  word1 : String
  word2 : String
  category : String
  severity : String

/-- One entry of the `spam_patterns` list.  `search` models
`re.search(pattern, message)`: `some m` is a match whose `group()` is `m`. -/
structure SpamPattern where
  search : String → Option String
  description : String

/-- The loaded rules dictionary of `ModerationRules` (src/moderation_rules.py). -/
structure ModerationRulesData where
  stop_words : List StopWordCategory
  word_combinations : List WordCombination
  spam_patterns : List SpamPattern

/-- `ModerationRules.check_word` (src/moderation_rules.py lines 43-58):
lower the word, then scan categories in order; a stop word matches when it
contains or is contained in the word AND the word is longer than 3
characters.  Returns `(violation, category)`. -/
def ModerationRules.check_word (rules : ModerationRulesData) (word : String) :
    Bool × Option String :=
  let w := py_lower word
  match rules.stop_words.find? (fun cat =>
      cat.words.any fun sw =>
        (py_contains sw w || py_contains w sw) && decide (3 < w.length)) with
  | some cat => (true, some cat.category)
  | none => (false, none)

/-- `ModerationRules.check_combination` (src/moderation_rules.py lines
60-75): lower the message, return the first combination whose two words both
occur in it. -/
def ModerationRules.check_combination (rules : ModerationRulesData)
    (message : String) : Bool × Option WordCombination :=
  let m := py_lower message
  match rules.word_combinations.find? (fun combo =>
      py_contains combo.word1 m && py_contains combo.word2 m) with
  | some combo => (true, some combo)
  | none => (false, none)

/-- `ModerationRules.get_spam_patterns` (src/moderation_rules.py lines 77-84). -/
def ModerationRules.get_spam_patterns (rules : ModerationRulesData) :
    List SpamPattern :=
  rules.spam_patterns

/-- Result dictionary of a successful classifier call:
`result.get('is_violation', False)` and `result.get('reason')`
(src/moderator.py `moderate_with_ai`). -/
structure AIResult where
  is_violation : Bool
  reason : Option String
  deriving Repr, DecidableEq

/-- The failure counters of `Moderator.__init__` (src/moderator.py lines
25-28). -/
structure ModState where
  gemini_failures : Nat
  deepseek_failures : Nat
  deriving Repr, DecidableEq

/-- `Moderator.max_failures = 3` (src/moderator.py line 28). -/
def max_failures : Nat := 3

/-- Outcome of one `moderate_with_ai` call: the returned
`(is_violation, reason)` pair, the updated failure counters, and whether
each model was actually invoked. -/
structure AIOutcome where
  result : Bool × Option String
  state : ModState
  gemini_called : Bool
  deepseek_called : Bool
  deriving Repr, DecidableEq

/-- The DeepSeek half of `Moderator.moderate_with_ai` (src/moderator.py
lines 108-122): consulted only while its failure counter is below the
threshold; a success resets the counter and returns the verdict, a failure
increments it and falls through to the `(False, None)` bottom return. -/
def Moderator.try_deepseek (s : ModState) (gemini_called : Bool)
    (d : Option AIResult) : AIOutcome :=
  if s.deepseek_failures < max_failures then
    match d with
    | some r =>
      ⟨(r.is_violation, r.reason), ⟨s.gemini_failures, 0⟩, gemini_called, true⟩
    | none =>
      ⟨(false, none), ⟨s.gemini_failures, s.deepseek_failures + 1⟩,
       gemini_called, true⟩
  else ⟨(false, none), s, gemini_called, false⟩

/-- `Moderator.moderate_with_ai` (src/moderator.py lines 93-122).  `g` and
`d` are the responses Gemini / DeepSeek would give if invoked (`none` =
failed call). -/
def Moderator.moderate_with_ai (s : ModState) (g d : Option AIResult) :
    AIOutcome :=
  if s.gemini_failures < max_failures then
    match g with
    | some r => ⟨(r.is_violation, r.reason), ⟨0, s.deepseek_failures⟩, true, false⟩
    | none =>
      Moderator.try_deepseek ⟨s.gemini_failures + 1, s.deepseek_failures⟩ true d
  else Moderator.try_deepseek s false d

/-- `Moderator.check_word_combinations` (src/moderator.py lines 30-42):
wraps `check_combination` into a human-readable reason. -/
def Moderator.check_word_combinations (rules : ModerationRulesData)
    (message : String) : Bool × Option String :=
  match ModerationRules.check_combination rules message with
  | (true, some combo) =>
    (true, some ("Обнаружена запрещенная комбинация слов: \x27" ++ combo.word1 ++
      "\x27 + \x27" ++ combo.word2 ++ "\x27 (категория: " ++ combo.category ++
      ", важность: " ++ combo.severity ++ ")"))
  | _ => (false, none)

/-- `Moderator.check_partial_matches` (src/moderator.py lines 44-57): lower
and whitespace-split the message, flag the first word `check_word` rejects. -/
def Moderator.check_partial_matches (rules : ModerationRulesData)
    (message : String) : Bool × Option String :=
  let ws := py_split_ws (py_lower message)
  match ws.find? (fun w => (ModerationRules.check_word rules w).1) with
  | some w =>
    (true, some ("Обнаружено запрещенное слово: \x27" ++ w ++ "\x27 (категория: " ++
      render_opt (ModerationRules.check_word rules w).2 ++ ")"))
  | none => (false, none)

/-- The three heuristic triggers of `Moderator.__init__` (src/moderator.py
lines 16-23): long message, caps ratio above one half (`2 * upper > len`
renders `sum(...)/len > 0.5` exactly), and the always-false placeholder. -/
def Moderator.triggers : List (String → Bool) :=
  [fun msg => decide (500 < msg.length),
   fun msg =>
     if msg.data.isEmpty then false
     else decide (msg.length < 2 * (msg.data.filter Char.isUpper).length),
   fun _ => false]

/-- The index-dependent trigger label of `Moderator.check_triggers`
(src/moderator.py line 85). -/
def Moderator.trigger_type (i : Nat) : String :=
  if i = 0 then "длинное сообщение"
  else if i = 1 then "капс"
  else "повторяющееся сообщение"

/-- `Moderator.check_triggers` (src/moderator.py lines 59-92): the local
filter, in source order - word combinations, partial stop-word matches,
spam patterns, heuristic triggers; clean messages yield `(false, none)`. -/
def Moderator.check_triggers (rules : ModerationRulesData) (message : String) :
    Bool × Option String :=
  let combo := Moderator.check_word_combinations rules message
  if combo.1 then combo
  else
    let pm := Moderator.check_partial_matches rules message
    if pm.1 then pm
    else
      match (ModerationRules.get_spam_patterns rules).find?
          (fun p => (p.search message).isSome) with
      | some p =>
        (true, some ("Обнаружен спам-паттерн: " ++ p.description ++
          " - найдено: " ++ render_opt (p.search message)))
      | none =>
        match Moderator.triggers.enum.find? (fun it => it.2 message) with
        | some it =>
          (true, some ("Сработал триггер модерации: " ++ Moderator.trigger_type it.1))
        | none => (false, none)

/-- Outcome of one `moderate_message` call: the returned
`(is_violation, reason)` pair, the updated failure counters, and whether
the classifier gateway (`moderate_with_ai`) was invoked at all. -/
structure ModerateOutcome where
  result : Bool × Option String
  state : ModState
  ai_called : Bool
  deriving Repr, DecidableEq

/-- `Moderator.moderate_message` (src/moderator.py lines 124-141): run the
local filter; on a local violation consult the classifier gateway and, when
it also flags, concatenate both reasons - otherwise keep the local reason;
clean messages return `(false, none)` without touching the gateway. -/
def Moderator.moderate_message (s : ModState) (rules : ModerationRulesData)
    (message : String) (g d : Option AIResult) : ModerateOutcome :=
  let local_check := Moderator.check_triggers rules message
  if local_check.1 then
    let out := Moderator.moderate_with_ai s g d
    let final_reason : Option String :=
      if out.result.1 then
        some ("Локальная причина: " ++ render_opt local_check.2 ++
          ". AI причина: " ++ render_opt out.result.2)
      else local_check.2
    ⟨(true, final_reason), out.state, true⟩
  else ⟨(false, none), s, false⟩

/-- `try_deepseek` reports the gemini-called flag it was handed. -/
theorem try_deepseek_gemini_called (s : ModState) (c : Bool) (d : Option AIResult) :
    (Moderator.try_deepseek s c d).gemini_called = c := by
  unfold Moderator.try_deepseek
  by_cases h : s.deepseek_failures < max_failures <;> cases d <;> simp [h]

/-- DeepSeek is invoked exactly when its failure counter is below the
threshold. -/
theorem try_deepseek_deepseek_called (s : ModState) (c : Bool) (d : Option AIResult) :
    (Moderator.try_deepseek s c d).deepseek_called =
      decide (s.deepseek_failures < max_failures) := by
  unfold Moderator.try_deepseek
  by_cases h : s.deepseek_failures < max_failures <;> cases d <;> simp [h]

/-- `try_deepseek` never touches the Gemini failure counter. -/
theorem try_deepseek_gemini_failures (s : ModState) (c : Bool) (d : Option AIResult) :
    (Moderator.try_deepseek s c d).state.gemini_failures = s.gemini_failures := by
  unfold Moderator.try_deepseek
  by_cases h : s.deepseek_failures < max_failures <;> cases d <;> simp [h]

/-- When DeepSeek is skipped or fails, `try_deepseek` returns `(false, none)`. -/
theorem try_deepseek_unavailable (s : ModState) (c : Bool) (d : Option AIResult)
    (hd : max_failures ≤ s.deepseek_failures ∨ d = none) :
    (Moderator.try_deepseek s c d).result = (false, none) := by
  unfold Moderator.try_deepseek
  rcases hd with hd | hd
  · rw [if_neg (by omega)]
  · subst hd
    by_cases h : s.deepseek_failures < max_failures <;> simp [h]

/-- C3 counterexample: with both classifiers exhausted the gateway returns
`(False, None)` - byte-for-byte the same value a successful Gemini call
reporting no violation (and no reason) produces, so the inconclusive
outcome is NOT distinguishable from a well-formed no-violation verdict. -/
theorem c3_counterexample :
    (Moderator.moderate_with_ai ⟨3, 3⟩ none none).result =
      (Moderator.moderate_with_ai ⟨0, 0⟩
        (some { is_violation := false, reason := none }) none).result := by
  rfl

/-- C3 amended: whenever both classifiers are skipped (threshold reached)
or fail, the gateway returns the plain pair `(false, none)` - it never
raises, but the value coincides with a no-violation verdict that carries no
reason rather than being a distinct `Unavailable` marker. -/
theorem c3_both_unavailable_returns_false_none (s : ModState)
    (g d : Option AIResult)
    (hg : max_failures ≤ s.gemini_failures ∨ g = none)
    (hd : max_failures ≤ s.deepseek_failures ∨ d = none) :
    (Moderator.moderate_with_ai s g d).result = (false, none) := by
  unfold Moderator.moderate_with_ai
  rcases hg with hg | hg
  · rw [if_neg (by omega)]
    exact try_deepseek_unavailable s false d hd
  · subst hg
    by_cases h1 : s.gemini_failures < max_failures
    · rw [if_pos h1]
      exact try_deepseek_unavailable ⟨s.gemini_failures + 1, s.deepseek_failures⟩
        true d hd
    · rw [if_neg h1]
      exact try_deepseek_unavailable s false d hd

/-- Closed instance of `c3_both_unavailable_returns_false_none`: Gemini
skipped after 3 failures, DeepSeek call failing. -/
theorem c3_both_unavailable_witness :
    (Moderator.moderate_with_ai ⟨3, 0⟩
      (some { is_violation := true, reason := some "x" }) none).result =
      (false, none) :=
  c3_both_unavailable_returns_false_none ⟨3, 0⟩
    (some { is_violation := true, reason := some "x" }) none
    (Or.inl (by decide)) (Or.inr rfl)

/-- C7: the classifier-fallback invariant of `moderate_with_ai`: Gemini is
invoked iff its failure counter is below the threshold 3; a successful
invocation resets the counter to 0 and returns the verdict without
consulting DeepSeek; a failed one increments the counter by exactly 1 and
falls through to DeepSeek under the same threshold rule; and once the
Gemini counter has reached the threshold it is never invoked again (and
never reset), so only DeepSeek is consulted from then on. -/
theorem c7_failover_invariant (s : ModState) (g d : Option AIResult) :
    (Moderator.moderate_with_ai s g d).gemini_called =
      decide (s.gemini_failures < max_failures) ∧
    (∀ r, s.gemini_failures < max_failures → g = some r →
      Moderator.moderate_with_ai s g d =
        ⟨(r.is_violation, r.reason), ⟨0, s.deepseek_failures⟩, true, false⟩) ∧
    (s.gemini_failures < max_failures → g = none →
      (Moderator.moderate_with_ai s g d).state.gemini_failures =
        s.gemini_failures + 1 ∧
      (Moderator.moderate_with_ai s g d).deepseek_called =
        decide (s.deepseek_failures < max_failures)) ∧
    (max_failures ≤ s.gemini_failures →
      (Moderator.moderate_with_ai s g d).gemini_called = false ∧
      (Moderator.moderate_with_ai s g d).deepseek_called =
        decide (s.deepseek_failures < max_failures) ∧
      (Moderator.moderate_with_ai s g d).state.gemini_failures =
        s.gemini_failures) := by
  refine ⟨?_, ?_, ?_, ?_⟩
  · by_cases h1 : s.gemini_failures < max_failures
    · unfold Moderator.moderate_with_ai
      cases g <;> simp [h1, try_deepseek_gemini_called]
    · unfold Moderator.moderate_with_ai
      simp [h1, try_deepseek_gemini_called]
  · intro r h1 hg
    subst hg
    unfold Moderator.moderate_with_ai
    simp [h1]
  · intro h1 hg
    subst hg
    unfold Moderator.moderate_with_ai
    simp [h1, try_deepseek_gemini_failures, try_deepseek_deepseek_called]
  · intro h1
    unfold Moderator.moderate_with_ai
    rw [if_neg (by omega)]
    exact ⟨try_deepseek_gemini_called s false d,
      try_deepseek_deepseek_called s false d,
      try_deepseek_gemini_failures s false d⟩

/-- Closed instance of `c7_failover_invariant`: with the Gemini counter at
the threshold, a call skips Gemini, consults DeepSeek, and leaves the
Gemini counter in place. -/
theorem c7_failover_invariant_witness :
    (Moderator.moderate_with_ai ⟨3, 1⟩
        (some { is_violation := true, reason := some "x" })
        (some { is_violation := false, reason := none })).gemini_called = false ∧
    (Moderator.moderate_with_ai ⟨3, 1⟩
        (some { is_violation := true, reason := some "x" })
        (some { is_violation := false, reason := none })).deepseek_called =
      decide ((1 : Nat) < max_failures) ∧
    (Moderator.moderate_with_ai ⟨3, 1⟩
        (some { is_violation := true, reason := some "x" })
        (some { is_violation := false, reason := none })).state.gemini_failures = 3 :=
  (c7_failover_invariant ⟨3, 1⟩
      (some { is_violation := true, reason := some "x" })
      (some { is_violation := false, reason := none })).2.2.2 (by decide)

/-- C5: a message the local filter passes clean makes `moderate_message`
return `(false, none)` with the failure counters untouched and the
classifier gateway never invoked; the right-hand side does not mention the
classifier responses `g`, `d`, so the outcome is identical for any two
classifier behaviours. -/
theorem c5_clean_message_skips_classifier (s : ModState)
    (rules : ModerationRulesData) (message : String) (g d : Option AIResult)
    (hclean : (Moderator.check_triggers rules message).1 = false) :
    Moderator.moderate_message s rules message g d =
      ⟨(false, none), s, false⟩ := by
  simp [Moderator.moderate_message, hclean]

/-- A rules dictionary with no stop words, combinations or patterns. -/
def empty_rules : ModerationRulesData := ⟨[], [], []⟩

/-- Closed instance of `c5_clean_message_skips_classifier`: the message
"hi" is clean under `empty_rules`, and the gateway is bypassed even though
the classifiers would have flagged it. -/
theorem c5_clean_message_skips_classifier_witness :
    (Moderator.check_triggers empty_rules "hi").1 = false ∧
    Moderator.moderate_message ⟨0, 0⟩ empty_rules "hi"
        (some { is_violation := true, reason := some "ai" })
        (some { is_violation := true, reason := some "ai" }) =
      ⟨(false, none), ⟨0, 0⟩, false⟩ :=
  ⟨by decide,
   c5_clean_message_skips_classifier ⟨0, 0⟩ empty_rules "hi"
     (some { is_violation := true, reason := some "ai" })
     (some { is_violation := true, reason := some "ai" }) (by decide)⟩

/-- `(a ++ b).data = a.data ++ b.data` for the embedding's strings. -/
theorem string_data_append (a b : String) : (a ++ b).data = a.data ++ b.data :=
  rfl

/-- C6: when the local filter flags a message, `moderate_message` reports a
violation whatever the classifier outcome; if the classifier also flags it
(with a reason), the combined reason contains the local and the classifier
reasons as substrings; if the classifier reports no violation (or was
unavailable), the reason is exactly the local one. -/
theorem c6_local_verdict_authoritative (s : ModState)
    (rules : ModerationRulesData) (message : String) (g d : Option AIResult)
    (rs : String)
    (hloc : Moderator.check_triggers rules message = (true, some rs)) :
    (Moderator.moderate_message s rules message g d).result.1 = true ∧
    (∀ as, (Moderator.moderate_with_ai s g d).result = (true, some as) →
      ∃ fr, (Moderator.moderate_message s rules message g d).result.2 = some fr ∧
        rs.data <:+: fr.data ∧ as.data <:+: fr.data) ∧
    ((Moderator.moderate_with_ai s g d).result.1 = false →
      (Moderator.moderate_message s rules message g d).result.2 = some rs) := by
  refine ⟨?_, ?_, ?_⟩
  · simp [Moderator.moderate_message, hloc]
  · intro as hai
    have hai1 : (Moderator.moderate_with_ai s g d).result.1 = true := by
      rw [hai]
    have hai2 : (Moderator.moderate_with_ai s g d).result.2 = some as := by
      rw [hai]
    refine ⟨"Локальная причина: " ++ rs ++ ". AI причина: " ++ as, ?_, ?_, ?_⟩
    · simp [Moderator.moderate_message, hloc, hai1, hai2, render_opt]
    · exact ⟨("Локальная причина: " : String).data, (". AI причина: " ++ as).data,
        by simp [string_data_append, List.append_assoc]⟩
    · exact ⟨("Локальная причина: " ++ rs ++ ". AI причина: " : String).data,
        [], by simp [string_data_append, List.append_assoc]⟩
  · intro hai1
    simp [Moderator.moderate_message, hloc, hai1]

/-- Rules with a single stop word, used to exercise the local filter. -/
def c6_rules : ModerationRulesData :=
  ⟨[{ category := "ads", words := ["spam"] }], [], []⟩

/-- The local reason `check_partial_matches` produces for "buy spam now". -/
def c6_local_reason : String :=
  "Обнаружено запрещенное слово: \x27spam\x27 (категория: ads)"

/-- Closed instance of `c6_local_verdict_authoritative`: local filter and
classifier both flag "buy spam now"; the combined reason contains both. -/
theorem c6_local_verdict_authoritative_witness :
    Moderator.check_triggers c6_rules "buy spam now" = (true, some c6_local_reason) ∧
    (∃ fr, (Moderator.moderate_message ⟨0, 0⟩ c6_rules "buy spam now"
        (some { is_violation := true, reason := some "ai flagged" })
        none).result.2 = some fr ∧
      c6_local_reason.data <:+: fr.data ∧ ("ai flagged" : String).data <:+: fr.data) :=
  ⟨by decide,
   (c6_local_verdict_authoritative ⟨0, 0⟩ c6_rules "buy spam now"
      (some { is_violation := true, reason := some "ai flagged" }) none
      c6_local_reason (by decide)).2.1 "ai flagged" (by decide)⟩

/-- C4: `check_word` on an (already lowercase) word token reports a
violation iff the word is longer than 3 characters and some configured
stop word contains it or is contained in it; the reported category is one
whose word list matches; and every word of length at most 3 yields
`(false, none)` - even one exactly equal to a stop word. -/
theorem c4_check_word_characterisation (rules : ModerationRulesData)
    (word : String) (hlower : py_lower word = word) :
    ((ModerationRules.check_word rules word).1 = true ↔
      (3 < word.length ∧ ∃ cat ∈ rules.stop_words, ∃ sw ∈ cat.words,
        sw.data <:+: word.data ∨ word.data <:+: sw.data)) ∧
    (∀ c, (ModerationRules.check_word rules word).2 = some c →
      ∃ cat ∈ rules.stop_words, cat.category = c ∧ ∃ sw ∈ cat.words,
        sw.data <:+: word.data ∨ word.data <:+: sw.data) ∧
    (word.length ≤ 3 → ModerationRules.check_word rules word = (false, none)) := by
  have hp : ∀ cat : StopWordCategory,
      (cat.words.any fun sw =>
        (py_contains sw word || py_contains word sw) &&
          decide (3 < word.length)) = true ↔
      (3 < word.length ∧ ∃ sw ∈ cat.words,
        sw.data <:+: word.data ∨ word.data <:+: sw.data) := by
    intro cat
    simp only [List.any_eq_true, Bool.and_eq_true, Bool.or_eq_true, py_contains,
      decide_eq_true_eq]
    constructor
    · rintro ⟨sw, hsw, hor, hlen⟩
      exact ⟨hlen, sw, hsw, hor⟩
    · rintro ⟨hlen, sw, hsw, hor⟩
      exact ⟨sw, hsw, hor, hlen⟩
  have hcw : ModerationRules.check_word rules word =
      (match rules.stop_words.find? (fun cat =>
          cat.words.any fun sw =>
            (py_contains sw word || py_contains word sw) &&
              decide (3 < word.length)) with
        | some cat => (true, some cat.category)
        | none => (false, none)) := by
    unfold ModerationRules.check_word
    rw [hlower]
  rw [hcw]
  cases hfind : rules.stop_words.find? (fun cat =>
      cat.words.any fun sw =>
        (py_contains sw word || py_contains word sw) &&
          decide (3 < word.length)) with
  | none =>
    rw [List.find?_eq_none] at hfind
    refine ⟨?_, ?_, fun _ => rfl⟩
    · constructor
      · intro h
        exact absurd h (by simp)
      · rintro ⟨hlen, cat, hcat, sw, hsw, hor⟩
        exact absurd ((hp cat).mpr ⟨hlen, sw, hsw, hor⟩) (by simpa using hfind cat hcat)
    · intro c hc
      simp at hc
  | some cat =>
    have hmem := List.mem_of_find?_eq_some hfind
    have hpc := List.find?_some hfind
    obtain ⟨hlen, sw, hsw, hor⟩ := (hp cat).mp hpc
    refine ⟨?_, ?_, ?_⟩
    · exact iff_of_true rfl ⟨hlen, cat, hmem, sw, hsw, hor⟩
    · intro c hc
      obtain rfl : cat.category = c := by simpa using hc
      exact ⟨cat, hmem, rfl, sw, hsw, hor⟩
    · intro hle
      exact absurd hlen (not_lt.mpr hle)

/-- Rules whose sole category holds the stop words "spam" and "ads". -/
def c4_rules : ModerationRulesData :=
  ⟨[{ category := "ads", words := ["spam", "ads"] }], [], []⟩

/-- Closed instance of `c4_check_word_characterisation`: "spamming"
(length 8, contains "spam") is flagged, while "ads" (length 3, exactly a
stop word) is not. -/
theorem c4_check_word_characterisation_witness :
    py_lower "spamming" = "spamming" ∧
    (ModerationRules.check_word c4_rules "spamming").1 = true ∧
    ModerationRules.check_word c4_rules "ads" = (false, none) :=
  ⟨by decide,
   (c4_check_word_characterisation c4_rules "spamming" (by decide)).1.mpr (by decide),
   (c4_check_word_characterisation c4_rules "ads" (by decide)).2.2 (by decide)⟩

/-- The tier table of `RateLimiter.__init__` (src/rate_limiter.py lines
18-23) combined with the `dict.get(user_type, default)` lookup of
`check_limit` (line 58): `(max_requests, interval_seconds)`. -/
def RateLimiter.limits (user_type : String) : Nat × Nat :=
  if user_type = "default" then (20, 60)
  else if user_type = "admin" then (100, 60)
  else if user_type = "new_user" then (10, 60)
  else (20, 60)

/-- `RateLimiter._clean_old_requests` (src/rate_limiter.py lines 33-45)
for one user: keep the `(timestamp, count)` entries with
`current_time - ts < interval`. -/
def RateLimiter.clean_old_requests (reqs : List (Int × Nat)) (now : Int)
    (interval : Nat) : List (Int × Nat) :=
  reqs.filter fun p => decide (now - p.1 < (interval : Int))

/-- `RateLimiter.add_request` (src/rate_limiter.py lines 77-86) for one
user: append `(now, 1)`. -/
def RateLimiter.add_request (reqs : List (Int × Nat)) (now : Int) :
    List (Int × Nat) :=
  reqs ++ [(now, 1)]

/-- `RateLimiter.check_limit` (src/rate_limiter.py lines 47-75) for one
user: prune old entries, sum the remaining counts, and when the tier
maximum is reached report `(allowed := false, max(0, interval - age of the
oldest retained request))`.  Returns the pruned request list (the method
mutates `self.requests[user_id]`) together with the Python return pair. -/
def RateLimiter.check_limit (reqs : List (Int × Nat)) (now : Int)
    (user_type : String) : List (Int × Nat) × Bool × Option Int :=
  let limit := RateLimiter.limits user_type
  let max_requests := limit.1
  let interval := limit.2
  let cleaned := RateLimiter.clean_old_requests reqs now interval
  let total_requests := (cleaned.map Prod.snd).sum
  if max_requests ≤ total_requests then
    let oldest_ts :=
      match (cleaned.map Prod.fst).min? with
      | some m => m
      | none => now
    let time_to_reset := (interval : Int) - (now - oldest_ts)
    (cleaned, false, some (max 0 time_to_reset))
  else (cleaned, true, none)

/-- C10: a default-tier user with 20 requests inside the current 60-second
window is refused on the next `check_limit` call: pruning keeps every
entry, the call returns `allowed = false`, and `secondsToReset` is the
strictly positive `interval - (now - oldest timestamp)`. -/
theorem c10_default_tier_refused_when_full (reqs : List (Int × Nat)) (now : Int)
    (hwin : ∀ p ∈ reqs, now - p.1 < 60)
    (hcount : (reqs.map Prod.snd).sum = 20) :
    ∃ m, (reqs.map Prod.fst).min? = some m ∧
      RateLimiter.check_limit reqs now "default" =
        (reqs, false, some (60 - (now - m))) ∧
      0 < 60 - (now - m) := by
  have hclean : RateLimiter.clean_old_requests reqs now 60 = reqs :=
    List.filter_eq_self.mpr fun p hp => decide_eq_true (hwin p hp)
  have hne : reqs ≠ [] := by
    intro h
    rw [h] at hcount
    simp at hcount
  obtain ⟨m, hmin⟩ : ∃ m, (reqs.map Prod.fst).min? = some m := by
    cases hm : (reqs.map Prod.fst).min? with
    | some m => exact ⟨m, rfl⟩
    | none =>
      rw [List.min?_eq_none_iff, List.map_eq_nil_iff] at hm
      exact absurd hm hne
  have hmem : m ∈ reqs.map Prod.fst := List.min?_mem min_choice hmin
  obtain ⟨p, hp, hpm⟩ := List.mem_map.mp hmem
  have hage : now - m < 60 := by
    rw [← hpm]
    exact hwin p hp
  have hpos : 0 < 60 - (now - m) := by omega
  refine ⟨m, hmin, ?_, hpos⟩
  simp only [RateLimiter.check_limit, RateLimiter.limits, if_pos rfl, hclean,
    hcount, hmin, le_refl, if_true]
  rw [show ((60 : Nat) : Int) = 60 from rfl, max_eq_right hpos.le]

/-- Twenty one-request entries recorded at time 100. -/
def c10_reqs : List (Int × Nat) := List.replicate 20 (100, 1)

/-- Closed instance of `c10_default_tier_refused_when_full`: the 21st call
at time 130 is refused with 30 seconds to reset. -/
theorem c10_default_tier_refused_when_full_witness :
    (∀ p ∈ c10_reqs, (130 : Int) - p.1 < 60) ∧
    (c10_reqs.map Prod.snd).sum = 20 ∧
    ∃ m, (c10_reqs.map Prod.fst).min? = some m ∧
      RateLimiter.check_limit c10_reqs 130 "default" =
        (c10_reqs, false, some (60 - (130 - m))) ∧
      0 < 60 - (130 - m) :=
  ⟨by decide, by decide,
   c10_default_tier_refused_when_full c10_reqs 130 (by decide) (by decide)⟩
